import Mathlib

/-!
# Verification of the agentic task orchestrator (`bot.py`)

A shallow embedding of the orchestration core of the repository's single
source file `bot.py`: the tool registry (`AgentTools`), the reasoning-client
result handling (`chat_with_ollama`), the plan extraction and execution loop
(`agentic_execute` / `execute_tool`), and the direct-execution fallback
(`direct_execute`).

Strings are Lean `String`s; where the Python code scans characters
(`os.path` functions, `str.find`, `str.split`) the embedding works on the
underlying `List Char` via small explicit helpers.  The filesystem and the
process boundary are modelled by an explicit `World` value; the Discord
progress sink (`ctx.send`) is modelled as a list of emitted `Msg` events,
one constructor per `ctx.send` call site.  Coroutine non-termination (an
`await` that never returns) is modelled by `Option`: `none` means the
invocation never completes.
-/

set_option autoImplicit false

namespace Bot

/-! ## Character-list string helpers (Python `str` operations) -/

/-- Python `s.startswith(c)` for a single character: first character test. -/
def headIs (s : String) (c : Char) : Bool := s.data.head? == some c

/-- Python `s.endswith(c)` for a single character: last character test. -/
def lastIs (s : String) (c : Char) : Bool := s.data.getLast? == some c

/-- Python `s.startswith(p)` for a general prefix string. -/
def pyStartsWith (s p : String) : Bool := p.data.isPrefixOf s.data

/-- Python `s.split(sep)` for a one-character separator, on character lists.
Mirrors `str.split`: splitting the empty string gives one empty field. -/
def splitChar (c : Char) : List Char → List (List Char)
  | [] => [[]]
  | d :: ds =>
    if d = c then [] :: splitChar c ds
    else
      match splitChar c ds with
      | [] => [[d]]
      | p :: ps => (d :: p) :: ps

/-- `'sep'.join(parts)` on character lists. -/
def joinChar (c : Char) : List (List Char) → List Char
  | [] => []
  | [p] => p
  | p :: ps => p ++ c :: joinChar c ps

/-- Split a path into `/`-separated components, as `posixpath` does. -/
def splitSlash (d : List Char) : List (List Char) := splitChar '/' d

/-- Join path components with `/`. -/
def joinSlash (ps : List (List Char)) : List Char := joinChar '/' ps

/-- Index of the first occurrence of `c` (Python `s.find(c)`, `None` for -1). -/
def findIdx (c : Char) (d : List Char) : Option Nat := d.findIdx? (· = c)

/-- Index of the last occurrence of `c` (Python `s.rfind(c)`, `None` for -1). -/
def rfindIdx (c : Char) (d : List Char) : Option Nat :=
  match (d.reverse.findIdx? (· = c)) with
  | none => none
  | some k => some (d.length - 1 - k)

/-- Python whitespace characters stripped by `str.strip()`. -/
def pySpace (c : Char) : Bool :=
  c = ' ' ∨ c = '\t' ∨ c = '\n' ∨ c = '\r' ∨ c = '\x0b' ∨ c = '\x0c'

/-- Python `s.strip()` (ASCII whitespace; the code never feeds it exotic
Unicode whitespace). -/
def pyStrip (s : String) : String :=
  String.mk (((s.data.dropWhile pySpace).reverse.dropWhile pySpace).reverse)

/-- Python slicing `s[:n]`. -/
def pyTake (n : Nat) (s : String) : String := String.mk (s.data.take n)

/-- Python `s.lower()` (ASCII case folding suffices for the keyword set used). -/
def pyLower (s : String) : String := String.mk (s.data.map Char.toLower)

/-- `needle` occurs as a contiguous segment of `hay`. -/
def containsSeg (needle : List Char) : List Char → Bool
  | [] => needle.isEmpty
  | c :: cs => needle.isPrefixOf (c :: cs) || containsSeg needle cs

/-- Python `needle in hay` for strings. -/
def pyContains (hay needle : String) : Bool := containsSeg needle.data hay.data

/-- Python `not response or response.startswith("Error")`, the guard used on
every reasoning-client result in `bot.py` (lines 156, 239, 320, 436). -/
def pyFalsyOrError (s : String) : Bool := s == "" || pyStartsWith s "Error"

/-! ## POSIX path functions (`os.path.join`, `os.path.abspath`, `os.path.dirname`)

These embed the CPython `posixpath` implementations, restricted to what the
program can produce: the double-leading-slash special case of `normpath`
(`//a`) is not modelled because no configuration in the program produces a
path with two leading slashes. -/

/-- `os.path.join(a, b)` (two-argument form, as used in `bot.py`). -/
def pjoin (a b : String) : String :=
  if headIs b '/' then b
  else if a = "" then b
  else if lastIs a '/' then a ++ b
  else a ++ "/" ++ b

/-- One step of `posixpath.normpath`'s component loop: `comps` processed into
`new_comps`.  `absFlag` records whether the whole path is absolute (`..` at
the root of an absolute path is dropped; on a relative path it is kept). -/
def normStack (absFlag : Bool) (stack : List (List Char)) (comp : List Char) :
    List (List Char) :=
  if comp = [] ∨ comp = ['.'] then stack
  else if comp ≠ ['.', '.'] then stack ++ [comp]
  else if (absFlag = false ∧ stack = []) ∨ stack.getLast? = some ['.', '.'] then
    stack ++ [comp]
  else if stack ≠ [] then stack.dropLast
  else stack

/-- `posixpath.normpath`. -/
def normpath (p : String) : String :=
  let absFlag := headIs p '/'
  let comps := (splitSlash p.data).foldl (normStack absFlag) []
  let body := joinSlash comps
  let full := if absFlag then '/' :: body else body
  if full = [] then "." else String.mk full

/-- `os.path.abspath(p)` relative to the current working directory `cwd`
(assumed absolute, as the operating system guarantees). -/
def abspath (cwd p : String) : String := normpath (pjoin cwd p)

/-- `os.path.dirname(p)` (posixpath): everything up to the last `/`, with
trailing slashes stripped unless the result is all slashes. -/
def dirname (p : String) : String :=
  match rfindIdx '/' p.data with
  | none => ""
  | some i =>
    let head := p.data.take (i + 1)
    if head.all (· = '/') then String.mk head
    else String.mk (head.reverse.dropWhile (· = '/')).reverse

/-! ## Configuration and path resolution -/

/-- The process configuration the tools close over: the working directory of
the process and the `SCRIPT_DIR` environment setting (default `./scripts`,
`bot.py` line 16). -/
structure Config where
  cwd : String
  scriptDir : String

/-- The path actually touched by `write_file` / `read_file` / `list_files`:
`os.path.abspath(os.path.join(SCRIPT_DIR, filepath))` (`bot.py` lines 56, 68,
79). -/
def resolveTool (cfg : Config) (filepath : String) : String :=
  abspath cfg.cwd (pjoin cfg.scriptDir filepath)

/-- The absolute form of the configured script root itself. -/
def scriptRoot (cfg : Config) : String := abspath cfg.cwd cfg.scriptDir

/-- `p` is the root or a descendant of the root (the confinement property the
specification asserts for all tool file operations). -/
def withinRoot (root p : String) : Bool :=
  p == root || (root ++ "/").data.isPrefixOf p.data

/-- Does any `/`-separated component of `filepath` equal `..`? -/
def hasDotDot (filepath : String) : Bool :=
  (splitSlash filepath.data).any (· = ['.', '.'])

/-! ## The world: filesystem and process boundary -/

/-- The observable behaviour of one shell command: how long it runs (`none`:
it never terminates), its exit code, and its decoded standard output and
standard error.  Time is in seconds, matching the `timeout=` units of
`asyncio.wait_for`. -/
structure ProcResult where
  time : Option Nat
  returncode : Int
  stdout : String
  stderr : String

/-- The mutable world the tools act on: regular files (absolute path to
content), existing directories (absolute paths), and the behaviour of the
shell for each command line. -/
structure World where
  files : List (String × String)
  dirs : List String
  procs : String → ProcResult

/-- The result dictionary a tool returns: `success` plus whichever of the
keys `output`/`error`/`content`/`files`/`path` the tool populates (`bot.py`
lines 44-50, 60-62, 71-73, 81-83, 226). -/
structure ToolResult where
  success : Bool
  output : Option String := none
  error : Option String := none
  content : Option String := none
  files : Option (List String) := none
  path : Option String := none
deriving DecidableEq, Repr

/-- Look up a file's content. -/
def fsGet (files : List (String × String)) (p : String) : Option String :=
  (files.find? (fun e => e.1 == p)).map (·.2)

/-- Write (create or overwrite) a file. -/
def fsSet (files : List (String × String)) (p c : String) :
    List (String × String) :=
  (p, c) :: files.filter (fun e => e.1 != p)

/-- `os.makedirs(p, exist_ok=True)`: add `p` and every ancestor directory.
Fuelled by the path length (each `dirname` step strictly shortens the path). -/
def addDirTree : Nat → String → List String → List String
  | 0, _, ds => ds
  | fuel + 1, p, ds =>
    if p = "" ∨ p = "/" then ds
    else if ds.contains p then ds
    else addDirTree fuel (dirname p) (p :: ds)

/-- `str(asyncio.TimeoutError())`: CPython renders this exception as the
empty string, so the `error` field of a timed-out command is `''`. -/
def timeoutErrorText : String := ""

/-- The dictionary `AgentTools.execute_command` returns when
`asyncio.wait_for` raises (`bot.py` line 50). -/
def timeoutResult : ToolResult :=
  { success := false, output := some "", error := some timeoutErrorText }

/-- `AgentTools.execute_command` (`bot.py` lines 34-50): run the command
through the shell, wait up to 30 seconds, return
`success = (returncode == 0)` with captured output, or the exception
dictionary on timeout.  The filesystem consequences of the command itself
are outside the modelled state (the command text is opaque). -/
def execute_command (w : World) (command : String) : ToolResult :=
  let p := w.procs command
  match p.time with
  | some t =>
    if t ≤ 30 then
      { success := p.returncode == 0, output := some p.stdout,
        error := some p.stderr }
    else timeoutResult
  | none => timeoutResult

/-- `AgentTools.write_file` (`bot.py` lines 52-62): resolve the path under
`SCRIPT_DIR`, create intermediate directories, write the content, return the
resolved absolute path.  There is no containment check: whatever
`os.path.abspath(os.path.join(SCRIPT_DIR, filepath))` yields is written. -/
def write_file (cfg : Config) (w : World) (filepath content : String) :
    ToolResult × World :=
  let abs_path := resolveTool cfg filepath
  let d := dirname abs_path
  ({ success := true, path := some abs_path },
   { w with files := fsSet w.files abs_path content,
            dirs := addDirTree (d.data.length + 1) d w.dirs })

/-- `AgentTools.read_file` (`bot.py` lines 64-73): resolve the path and read
the file; an unreadable path (missing file, or a directory) yields the
exception dictionary.  The exception text abbreviates CPython's
`[Errno 2] No such file or directory: path` / `[Errno 21] Is a directory:
path` messages (no claim depends on their exact wording). -/
def read_file (cfg : Config) (w : World) (filepath : String) : ToolResult :=
  let abs_path := resolveTool cfg filepath
  match fsGet w.files abs_path with
  | some c => { success := true, content := some c }
  | none =>
    if w.dirs.contains abs_path then
      { success := false, error := some ("[Errno 21] Is a directory: " ++ abs_path) }
    else
      { success := false,
        error := some ("[Errno 2] No such file or directory: " ++ abs_path) }

/-- `os.path.basename`-style last component, used to list directory entries. -/
def baseOf (p : String) : String :=
  match rfindIdx '/' p.data with
  | none => p
  | some i => String.mk (p.data.drop (i + 1))

/-- The direct children names of directory `d` (what `os.listdir` returns,
order unspecified; the model lists files then subdirectories). -/
def childNames (w : World) (d : String) : List String :=
  ((w.files.map (·.1)).filter (fun p => dirname p == d)).map baseOf ++
    (w.dirs.filter (fun p => p != d && dirname p == d)).map baseOf

/-- `AgentTools.list_files` (`bot.py` lines 75-83): resolve the directory and
list its direct children; a missing directory yields the exception
dictionary. -/
def list_files (cfg : Config) (w : World) (directory : String) : ToolResult :=
  let abs_path := resolveTool cfg directory
  if w.dirs.contains abs_path then
    { success := true, files := some (childNames w abs_path) }
  else
    { success := false,
      error := some ("[Errno 2] No such file or directory: " ++ abs_path) }

/-! ## JSON values and Python `dict` access -/

/-- Decoded JSON values, as produced by `json.loads`.  Number literals are
modelled as integers: no plan in the claims carries floating-point literals,
and every general theorem quantifies over decoded values directly. -/
inductive Json where
  | null
  | bool (b : Bool)
  | num (n : Int)
  | str (s : String)
  | arr (xs : List Json)
  | obj (kvs : List (String × Json))

/-- Python `d[k]` / `k in d` on a decoded object: `json.loads` keeps the
last of duplicate keys, so lookup searches from the right.  On a non-object
value there is no entry (the Python call sites that would raise instead are
modelled at those sites). -/
def jlookup (j : Json) (k : String) : Option Json :=
  match j with
  | Json.obj kvs => (kvs.reverse.find? (fun p => p.1 == k)).map (·.2)
  | _ => none

/-- Python `d.get(k, dflt)` on a decoded object. -/
def jget (j : Json) (k : String) (d : Json) : Json := (jlookup j k).getD d

/-- Python `str(x)` of a decoded JSON value, as an f-string interpolates it.
Strings interpolate bare; `True`/`False`/`None` use the Python spellings;
container formatting is approximated (CPython uses `repr` with quote
characters around strings; no claim inspects a formatted container). -/
def pyStr : Json → String
  | Json.null => "None"
  | Json.bool true => "True"
  | Json.bool false => "False"
  | Json.num n => toString n
  | Json.str s => s
  | Json.arr xs => "[" ++ String.intercalate ", " (xs.map pyStrJ) ++ "]"
  | Json.obj kvs =>
      "\x7b" ++ String.intercalate ", " (kvs.map (fun p => p.1 ++ ": " ++ pyStrJ p.2)) ++ "\x7d"
where
  /-- Element formatting inside containers (depth-limited approximation). -/
  pyStrJ : Json → String
  | Json.null => "None"
  | Json.bool true => "True"
  | Json.bool false => "False"
  | Json.num n => toString n
  | Json.str s => "\x27" ++ s ++ "\x27"
  | Json.arr _ => "[...]"
  | Json.obj _ => "\x7b...\x7d"

/-! ## Tool dispatch (`execute_tool`) -/

/-- Outcome of `params.get(key, dflt)` at a dispatch site: the receiver is
not a dict (`AttributeError`, which propagates out of `execute_tool` into
`agentic_execute`'s generic handler), the value is present but of the wrong
type (the tool body then raises inside its own `try` and returns a failure
dictionary), or a usable string. -/
inductive PGet where
  | exc
  | typeErr
  | val (s : String)

/-- `params.get(key, dflt)` as `execute_tool` uses it (`bot.py` lines
218-224): the default is a string, and a non-string value makes the tool
body raise. -/
def pget (params : Json) (key dflt : String) : PGet :=
  match params with
  | Json.obj _ =>
    match jlookup params key with
    | none => PGet.val dflt
    | some (Json.str s) => PGet.val s
    | some _ => PGet.typeErr
  | _ => PGet.exc

/-- The failure dictionary a tool returns when its body raises a type error
on a non-string parameter (the text abbreviates CPython's message). -/
def typeErrResult : ToolResult := { success := false, error := some "TypeError" }

/-- Run a tool body that takes one string parameter, threading the three
`pget` outcomes.  `none` models the `AttributeError` escaping
`execute_tool`. -/
def runTool1 (w : World) (p : PGet) (k : String → ToolResult × World) :
    Option (ToolResult × World) :=
  match p with
  | PGet.exc => none
  | PGet.typeErr => some (typeErrResult, w)
  | PGet.val s => some (k s)

/-- Python `tool_name == '<literal>'`: equal only when `tool_name` is that
string (a non-string plan value is simply unequal to every tool name). -/
def toolNameIs (tool_name : Json) (s : String) : Bool :=
  match tool_name with
  | Json.str t => t == s
  | _ => false

/-- `execute_tool` (`bot.py` lines 213-226): dispatch on the tool name; the
four registered tools fetch their parameters with `params.get`; any other
name returns the unknown-tool failure without touching `params` or
performing I/O. -/
def executeTool (cfg : Config) (w : World) (tool_name params : Json) :
    Option (ToolResult × World) :=
  if toolNameIs tool_name "execute_command" then
    runTool1 w (pget params "command" "") (fun c => (execute_command w c, w))
  else if toolNameIs tool_name "write_file" then
    match pget params "filepath" "", pget params "content" "" with
    | PGet.exc, _ => none
    | _, PGet.exc => none
    | PGet.typeErr, _ => some (typeErrResult, w)
    | _, PGet.typeErr => some (typeErrResult, w)
    | PGet.val f, PGet.val c => some (write_file cfg w f c)
  else if toolNameIs tool_name "read_file" then
    runTool1 w (pget params "filepath" "") (fun f => (read_file cfg w f, w))
  else if toolNameIs tool_name "list_files" then
    runTool1 w (pget params "directory" ".") (fun d => (list_files cfg w d, w))
  else
    some ({ success := false, error := some ("Unknown tool: " ++ pyStr tool_name) }, w)

/-! ## Progress events

One constructor per `ctx.send` call site in the orchestration core; the
payload is the data interpolated into the message at that site (the
surrounding emoji and markdown are display formatting). -/

inductive Msg where
  /-- `bot.py` line 150: the starting notice. -/
  | starting (task : String)
  /-- line 157: planning failed (reasoning-client error or empty result). -/
  | planningFailed (response : String)
  /-- line 172: the plan's `thinking` text, sliced to 500 characters. -/
  | thinking (t : String)
  /-- line 182: about to run step `i` (1-based), with its reason, action and
  params values. -/
  | stepStart (i : Nat) (reason action params : Json)
  /-- line 191: step `i` succeeded, with the 500-character result preview. -/
  | stepOk (i : Nat) (preview : String)
  /-- line 194: step `i` failed, with its error text. -/
  | stepFailed (i : Nat) (error : String)
  /-- line 201: the plan's `final_answer` formatted into the terminal report. -/
  | finalResult (answer : String)
  /-- line 203: the plan decoded but has no `steps` field. -/
  | noStepsFound
  /-- line 207: could not parse a structured plan, falling back. -/
  | parseFallback
  /-- line 210: an uncaught exception inside the plan-handling `try`. -/
  | execError (e : String)
  /-- line 240: the fallback's code generation failed. -/
  | codeGenFailed (response : String)
  /-- line 264: the fallback's generated code, truncated to 1000 characters. -/
  | generatedCode (language code : String)
  /-- line 280: the fallback script exited 0, with truncated output. -/
  | execOk (output : String)
  /-- line 283: the fallback script exited non-zero, with truncated error. -/
  | execFailed (error : String)

/-- `result.get('output', result.get('content', result.get('files',
'Success')))` followed by `str(...)[:500]` (`bot.py` lines 189-190). -/
def previewOf (r : ToolResult) : String :=
  pyTake 500 <|
    match r.output with
    | some o => o
    | none =>
      match r.content with
      | some c => c
      | none =>
        match r.files with
        | some fs =>
          "[" ++ String.intercalate ", " (fs.map (fun s => "\x27" ++ s ++ "\x27")) ++ "]"
        | none => "Success"

/-! ## The step-execution loop -/

/-- What one pass of the `for` loop over `plan['steps'][:max_steps]`
produces: the emitted events, the `ToolResult`s of the dispatched steps, the
final world, whether the loop hit `break` (a failing step), and whether an
exception escaped to the generic handler (`exc`). -/
structure StepsOut where
  msgs : List Msg
  results : List ToolResult
  world : World
  aborted : Bool
  exc : Bool

/-- The step loop of `agentic_execute` (`bot.py` lines 177-197), starting at
1-based index `i`.  A non-dict step raises `AttributeError` at
`step.get('action', '')` before any message for that step is sent; a
non-dict `params` raises inside `execute_tool` after the step-start message;
a failing `ToolResult` emits the error and `break`s. -/
def runSteps (cfg : Config) : World → Nat → List Json → StepsOut
  | w, _, [] => ⟨[], [], w, false, false⟩
  | w, i, step :: rest =>
    match step with
    | Json.obj _ =>
      let action := jget step "action" (Json.str "")
      let params := jget step "params" (Json.obj [])
      let reason := jget step "reason" (Json.str "")
      match executeTool cfg w action params with
      | none => ⟨[Msg.stepStart i reason action params], [], w, false, true⟩
      | some (r, w2) =>
        if r.success then
          let so := runSteps cfg w2 (i + 1) rest
          ⟨Msg.stepStart i reason action params :: Msg.stepOk i (previewOf r) :: so.msgs,
           r :: so.results, so.world, so.aborted, so.exc⟩
        else
          ⟨[Msg.stepStart i reason action params,
            Msg.stepFailed i (r.error.getD "Unknown error")],
           [r], w2, true, false⟩
    | _ => ⟨[], [], w, false, true⟩

/-! ## `json.loads`

A recursive-descent decoder for the JSON fragment the program exchanges
(objects, arrays, strings with the common escapes, integer numbers, the
three literals).  It is strict like `json.loads`: trailing garbage or a
malformed interior makes the whole decode fail. -/

/-- JSON insignificant whitespace. -/
def jsonWs (c : Char) : Bool := c = ' ' ∨ c = '\n' ∨ c = '\t' ∨ c = '\r'

/-- Skip insignificant whitespace. -/
def skipWs (d : List Char) : List Char := d.dropWhile jsonWs

/-- Parse the body of a string literal after the opening quote, handling the
single-character escapes (`\u` sequences are outside the modelled fragment). -/
def parseStrBody : List Char → Option (List Char × List Char)
  | [] => none
  | '"' :: rest => some ([], rest)
  | '\\' :: e :: rest =>
    (match e with
     | '"' => some '"'
     | '\\' => some '\\'
     | '/' => some '/'
     | 'n' => some '\n'
     | 't' => some '\t'
     | 'r' => some '\r'
     | 'b' => some '\x08'
     | 'f' => some '\x0c'
     | _ => none).bind fun c =>
      (parseStrBody rest).map fun pr : List Char × List Char => (c :: pr.1, pr.2)
  | c :: rest =>
    (parseStrBody rest).map fun pr : List Char × List Char => (c :: pr.1, pr.2)

/-- Consume a run of decimal digits, accumulating their value. -/
def digitsLoop (acc : Nat) : List Char → Nat × List Char
  | [] => (acc, [])
  | d :: ds =>
    if d.isDigit then digitsLoop (acc * 10 + (d.toNat - 48)) ds else (acc, d :: ds)

/-- Parse a run of decimal digits into a natural number (at least one digit
required). -/
def parseDigits : List Char → Option (Nat × List Char)
  | [] => none
  | c :: rest =>
    if c.isDigit then some (digitsLoop (c.toNat - 48) rest)
    else none

/-- Parse one JSON value (fuelled; the fuel exceeds the input length so it
never runs out on a real input). -/
def parseJ : Nat → List Char → Option (Json × List Char)
  | 0, _ => none
  | fuel + 1, d =>
    match skipWs d with
    | [] => none
    | c :: rest =>
      if c = '"' then
        (parseStrBody rest).map fun pr => (Json.str (String.mk pr.1), pr.2)
      else if c = 't' then
        if rest.take 3 = ['r', 'u', 'e'] then some (Json.bool true, rest.drop 3) else none
      else if c = 'f' then
        if rest.take 4 = ['a', 'l', 's', 'e'] then some (Json.bool false, rest.drop 4) else none
      else if c = 'n' then
        if rest.take 3 = ['u', 'l', 'l'] then some (Json.null, rest.drop 3) else none
      else if c = '-' then
        (parseDigits rest).map fun pr => (Json.num (-(pr.1 : Int)), pr.2)
      else if c.isDigit then
        (parseDigits (c :: rest)).map fun pr => (Json.num (pr.1 : Int), pr.2)
      else if c = '[' then
        match skipWs rest with
        | ']' :: rest2 => some (Json.arr [], rest2)
        | _ => (parseItems fuel rest).map fun pr => (Json.arr pr.1, pr.2)
      else if c = '\x7b' then
        match skipWs rest with
        | '\x7d' :: rest2 => some (Json.obj [], rest2)
        | _ => (parseMembers fuel rest).map fun pr => (Json.obj pr.1, pr.2)
      else none
where
  /-- Comma-separated array items, expecting at least one, up to `]`. -/
  parseItems : Nat → List Char → Option (List Json × List Char)
    | 0, _ => none
    | fuel + 1, d =>
      (parseJ fuel d).bind fun pr =>
        match skipWs pr.2 with
        | ',' :: rest => (parseItems fuel rest).map fun qr => (pr.1 :: qr.1, qr.2)
        | ']' :: rest => some ([pr.1], rest)
        | _ => none
  /-- Comma-separated object members, expecting at least one, up to the
  closing brace. -/
  parseMembers : Nat → List Char → Option (List (String × Json) × List Char)
    | 0, _ => none
    | fuel + 1, d =>
      match skipWs d with
      | '"' :: rest =>
        (parseStrBody rest).bind fun kr =>
          match skipWs kr.2 with
          | ':' :: rest2 =>
            (parseJ fuel rest2).bind fun vr =>
              match skipWs vr.2 with
              | ',' :: rest3 =>
                (parseMembers fuel rest3).map fun mr =>
                  ((String.mk kr.1, vr.1) :: mr.1, mr.2)
              | '\x7d' :: rest3 => some ([(String.mk kr.1, vr.1)], rest3)
              | _ => none
          | _ => none
      | _ => none

/-- `json.loads(s)`: decode one value and require only whitespace after it. -/
def jsonDecode (s : String) : Option Json :=
  (parseJ (s.data.length + 1) s.data).bind fun pr =>
    if skipWs pr.2 = [] then some pr.1 else none

/-- The brace-extraction step of the plan parser (`bot.py` lines 163-168):
the substring from the first `{` through the last `}`, or `none` when
`json_start < 0` or `json_end <= json_start` (the code then raises
`ValueError`, not a `json.JSONDecodeError`). -/
def extractJson (response : String) : Option String :=
  let d := response.data
  match findIdx '\x7b' d, rfindIdx '\x7d' d with
  | some i, some j =>
    if j + 1 > i then some (String.mk ((d.drop i).take (j + 1 - i))) else none
  | _, _ => none

/-! ## The orchestrator (`agentic_execute`) and the fallback -/

/-- The reasoning backend's observable behaviour for one invocation: the
text `chat_with_ollama` returns for the planning call and for the fallback's
code-generation call, plus the `datetime.now()` timestamp string used in the
fallback's filename. -/
structure Env where
  planResponse : String
  codeResponse : String
  timestamp : String

/-- Terminal status of one `agentic_execute` invocation. -/
inductive AOutcome where
  /-- line 157: the reasoning client failed; nothing else ran. -/
  | planningFailed
  /-- line 210: an exception other than `json.JSONDecodeError` escaped the
  plan-handling `try` (including the `ValueError` for a brace-less
  response). -/
  | execError
  /-- lines 206-208: `json.loads` raised and `direct_execute` ran. -/
  | fallback
  /-- line 203: the plan decoded but carries no `steps` field. -/
  | noSteps
  /-- the step loop finished without a failing step. -/
  | completed
  /-- a step failed and the loop stopped early. -/
  | aborted
deriving DecidableEq, Repr

/-- Everything observable about one `agentic_execute` invocation: emitted
events, per-step `ToolResult`s, the final world and the terminal status. -/
structure AgentRun where
  msgs : List Msg
  results : List ToolResult
  world : World
  outcome : AOutcome

/-- The `thinking` report (`bot.py` lines 171-172): absent key emits
nothing; a string (or sliceable list) value is sliced to 500 characters and
emitted; any other value raises `TypeError` at the slice (`error`). -/
def thinkingStage (plan : Json) : Except Unit (List Msg) :=
  match jlookup plan "thinking" with
  | none => Except.ok []
  | some (Json.str t) => Except.ok [Msg.thinking (pyTake 500 t)]
  | some (Json.arr xs) => Except.ok [Msg.thinking (pyStr (Json.arr (xs.take 500)))]
  | some _ => Except.error ()

/-- The terminal report (`bot.py` lines 200-201): emitted only inside the
`if 'steps' in plan` branch, whenever the key `final_answer` is present. -/
def finalMsgs (plan : Json) : List Msg :=
  match jlookup plan "final_answer" with
  | some fa => [Msg.finalResult (pyStr fa)]
  | none => []

/-- The plan-handling stage after a successful decode (`bot.py` lines
170-203), producing everything but the leading starting message.  A
non-sliceable `steps` value (or a mid-loop exception) lands in the generic
handler as an execution error; an empty-string `steps` slices to an empty
iterable, so the loop is skipped and the final answer is still emitted. -/
def afterDecode (cfg : Config) (w : World) (maxSteps : Nat) (plan : Json) :
    AgentRun :=
  match thinkingStage plan with
  | Except.error _ => ⟨[Msg.execError "TypeError"], [], w, AOutcome.execError⟩
  | Except.ok tmsgs =>
    match jlookup plan "steps" with
    | some (Json.arr l) =>
      let so := runSteps cfg w 1 (l.take maxSteps)
      if so.exc then
        ⟨tmsgs ++ so.msgs ++ [Msg.execError "AttributeError"], so.results,
         so.world, AOutcome.execError⟩
      else
        ⟨tmsgs ++ so.msgs ++ finalMsgs plan, so.results, so.world,
         if so.aborted then AOutcome.aborted else AOutcome.completed⟩
    | some (Json.str s) =>
      if s = "" then ⟨tmsgs ++ finalMsgs plan, [], w, AOutcome.completed⟩
      else ⟨tmsgs ++ [Msg.execError "AttributeError"], [], w, AOutcome.execError⟩
    | some _ => ⟨tmsgs ++ [Msg.execError "TypeError"], [], w, AOutcome.execError⟩
    | none => ⟨tmsgs ++ [Msg.noStepsFound], [], w, AOutcome.noSteps⟩

/-- Strip one leading and one trailing fenced-code delimiter line
(`bot.py` lines 244-251). -/
def cleanCode (response : String) : String :=
  let code := pyStrip response
  if pyStartsWith code "```" then
    let lines := splitChar '\n' code.data
    let lines :=
      match lines with
      | l0 :: rest => if "```".data.isPrefixOf l0 then rest else lines
      | [] => lines
    let lines :=
      if h : lines ≠ [] then
        if "```".data.isPrefixOf (lines.getLast h) then lines.dropLast else lines
      else lines
    String.mk (joinChar '\n' lines)
  else code

/-- The fallback's language heuristic (`bot.py` line 234). -/
def chooseLanguage (task : String) : String :=
  if pyContains (pyLower task) "python" || pyContains (pyLower task) "script" ||
      pyContains (pyLower task) "calculate" then "python" else "bash"

/-- The generated artifact's name (`bot.py` lines 254-255). -/
def directFilename (env : Env) (language : String) : String :=
  "task_" ++ env.timestamp ++ "." ++ (if language = "python" then "py" else "sh")

/-- The command line the fallback executes (`bot.py` lines 267-268). -/
def directCommand (cfg : Config) (env : Env) (task : String) : String :=
  let language := chooseLanguage task
  let abs_filepath := abspath cfg.cwd (pjoin cfg.scriptDir (directFilename env language))
  (if language = "python" then "python3 " else "bash ") ++ abs_filepath

/-- `direct_execute` (`bot.py` lines 229-283): generate code, clean it,
persist it under the script root, and run it with `await
process.communicate()` — with no `asyncio.wait_for`, so a script that never
terminates suspends the coroutine forever (`none`).  The `chmod` on shell
scripts is a permission bit outside the modelled filesystem state. -/
def direct_execute (cfg : Config) (env : Env) (w : World) (task : String) :
    Option (List Msg × World) :=
  if pyFalsyOrError env.codeResponse then
    some ([Msg.codeGenFailed env.codeResponse], w)
  else
    let language := chooseLanguage task
    let code := cleanCode env.codeResponse
    let filepath := pjoin cfg.scriptDir (directFilename env language)
    let abs_filepath := abspath cfg.cwd filepath
    let d := dirname abs_filepath
    let w2 : World :=
      { w with files := fsSet w.files abs_filepath code,
               dirs := addDirTree (d.data.length + 1) d w.dirs }
    let p := w2.procs (directCommand cfg env task)
    match p.time with
    | none => none
    | some _ =>
      if p.returncode == 0 then
        some ([Msg.generatedCode language (pyTake 1000 code),
               Msg.execOk (pyTake 1000 p.stdout)], w2)
      else
        some ([Msg.generatedCode language (pyTake 1000 code),
               Msg.execFailed (pyTake 500 p.stderr)], w2)

/-- `agentic_execute` (`bot.py` lines 118-210): the full orchestrator for
one task.  `maxSteps` defaults to 10 as in the source.  `none` models an
invocation that never completes (only possible through the fallback's
untimed subprocess wait). -/
def agentic_execute (cfg : Config) (env : Env) (w : World) (task : String)
    (maxSteps : Nat := 10) : Option AgentRun :=
  if pyFalsyOrError env.planResponse then
    some ⟨[Msg.starting task, Msg.planningFailed env.planResponse], [], w,
          AOutcome.planningFailed⟩
  else
    match extractJson env.planResponse with
    | none =>
      some ⟨[Msg.starting task, Msg.execError "No JSON found in response"], [],
            w, AOutcome.execError⟩
    | some s =>
      match jsonDecode s with
      | none =>
        (direct_execute cfg env w task).map fun d =>
          ⟨[Msg.starting task, Msg.parseFallback] ++ d.1, [], d.2,
           AOutcome.fallback⟩
      | some plan =>
        let a := afterDecode cfg w maxSteps plan
        some ⟨Msg.starting task :: a.msgs, a.results, a.world, a.outcome⟩

/-- The content extraction of `chat_with_ollama`'s HTTP-200 branch
(`bot.py` line 109): `data.get('message', {}).get('content', '')` — a
missing `message` or `content` field yields the empty string, not an
error. -/
def extractContent (data : Json) : Json :=
  jget (jget data "message" (Json.obj [])) "content" (Json.str "")

/-- Does the event stream contain a terminal `final_answer` report? -/
def hasFinalMsg (msgs : List Msg) : Bool :=
  msgs.any fun m => match m with
    | Msg.finalResult _ => true
    | _ => false

/-! ## Concrete fixtures for witnesses and counterexamples

A process whose working directory is `/w` with the default
`SCRIPT_DIR = './scripts'` (so the script root is `/w/scripts`), plus a few
worlds: every command returns immediately with exit code 0, or every command
runs forever, or a secret file exists outside the root. -/

/-- Default configuration: working directory `/w`, `SCRIPT_DIR = ./scripts`. -/
def cfg0 : Config := ⟨"/w", "./scripts"⟩

/-- A command that exits immediately with code 0. -/
def procOk : ProcResult := ⟨some 0, 0, "", ""⟩

/-- A command that never terminates. -/
def procHang : ProcResult := ⟨none, 0, "", ""⟩

/-- Fresh world: the script root exists (created at startup, `bot.py`
line 19) and is empty; every command succeeds instantly. -/
def w0 : World := ⟨[], ["/w", "/w/scripts"], fun _ => procOk⟩

/-- World in which every shell command runs forever. -/
def wHang : World := ⟨[], ["/w", "/w/scripts"], fun _ => procHang⟩

/-- World with a file outside the script root. -/
def wSecret : World := ⟨[("/w/secret", "sss")], ["/w", "/w/scripts"], fun _ => procOk⟩

/-- A reasoning response whose plan has a bogus first step and a second
step, used to exercise the abort path. -/
def planResponseB : String :=
  "\x7b\"steps\": [\x7b\"action\": \"bogus_tool\", \"params\": \x7b\x7d\x7d, \x7b\"action\": \"list_files\"\x7d]\x7d"

/-- A reasoning response that decodes but has no `steps` field. -/
def planResponseNoSteps : String :=
  "\x7b\"thinking\": \"t\", \"final_answer\": \"done\"\x7d"

/-- A decoded plan whose only step is a well-formed `list_files` call. -/
def planListFiles : Json :=
  Json.obj [("steps", Json.arr [Json.obj
    [("action", Json.str "list_files"), ("params", Json.obj [])]])]

/-- A decoded plan whose only step names an unregistered tool, with a
`final_answer` present. -/
def planFailFinal : Json :=
  Json.obj [("steps", Json.arr [Json.obj
    [("action", Json.str "bogus_tool"), ("params", Json.obj [])]]),
    ("final_answer", Json.str "done")]

/-- Number of steps a decoded plan carries. -/
def stepsLen (p : Json) : Nat :=
  match jlookup p "steps" with
  | some (Json.arr l) => l.length
  | _ => 0

/-! # Claim theorems -/

/-! ## Shared dispatch lemma -/

/-- Dispatching any action name outside the four registered tools returns
the constant unknown-tool failure and leaves the world untouched. -/
theorem executeTool_unknown (cfg : Config) (w : World) (name : String)
    (params : Json)
    (h1 : name ≠ "execute_command") (h2 : name ≠ "write_file")
    (h3 : name ≠ "read_file") (h4 : name ≠ "list_files") :
    executeTool cfg w (Json.str name) params =
      some ({ success := false, error := some ("Unknown tool: " ++ name) }, w) := by
  simp [executeTool, toolNameIs, h1, h2, h3, h4, pyStr]

/-! ## C5 — unknown-tool dispatch -/

/-- **C5, counterexample.**  Dispatching the unregistered tool
`bogus_tool` does return `success=false` with no I/O, but the error text is
`Unknown tool: bogus_tool` (capital `U`, `bot.py` line 226), not the
claimed exact string `unknown tool: bogus_tool`. -/
theorem c5_counterexample :
    executeTool cfg0 w0 (Json.str "bogus_tool") (Json.obj []) =
      some ({ success := false, error := some "Unknown tool: bogus_tool" }, w0) ∧
    ("Unknown tool: bogus_tool" : String) ≠ "unknown tool: bogus_tool" :=
  ⟨rfl, by decide⟩

/-- **C5, amended.**  For every dispatched action that names none of the
four registered tools, dispatch returns `success=false` with error exactly
`Unknown tool: <name>` and performs no filesystem or process I/O: the
result is a constant and the world is returned unchanged, whatever the
params value is. -/
theorem c5_unknown_tool (cfg : Config) (w : World) (name : String) (params : Json)
    (h1 : name ≠ "execute_command") (h2 : name ≠ "write_file")
    (h3 : name ≠ "read_file") (h4 : name ≠ "list_files") :
    executeTool cfg w (Json.str name) params =
      some ({ success := false, error := some ("Unknown tool: " ++ name) }, w) :=
  executeTool_unknown cfg w name params h1 h2 h3 h4

/-- **C5, witness.**  The amended theorem at a concrete unregistered name. -/
theorem c5_unknown_tool_witness :
    executeTool cfg0 w0 (Json.str "frobnicate") (Json.obj []) =
      some ({ success := false, error := some ("Unknown tool: " ++ "frobnicate") }, w0) :=
  c5_unknown_tool cfg0 w0 "frobnicate" (Json.obj [])
    (by decide) (by decide) (by decide) (by decide)

/-! ## C9 — empty or `Error`-prefixed reasoning result -/

/-- **C9.**  When the reasoning client returns the empty string or any text
beginning with `Error`, `agentic_execute` reports a planning failure and
stops: no tool runs, the world is unchanged, and neither the step-executor
nor the direct-executor path is taken (`bot.py` lines 156-158).  Moreover a
decoded HTTP-200 body whose `message` is absent, or whose `message` object
lacks `content`, extracts to the empty string (`bot.py` line 109), so the
empty string is indeed a reachable HTTP-200 result. -/
theorem c9_error_gate (cfg : Config) (env : Env) (w : World) (task : String)
    (maxSteps : Nat) (h : pyFalsyOrError env.planResponse = true) :
    agentic_execute cfg env w task maxSteps =
      some ⟨[Msg.starting task, Msg.planningFailed env.planResponse], [], w,
            AOutcome.planningFailed⟩ ∧
    (∀ kvs : List (String × Json), jlookup (Json.obj kvs) "message" = none →
      extractContent (Json.obj kvs) = Json.str "") ∧
    (∀ kvs mkvs : List (String × Json),
      jlookup (Json.obj kvs) "message" = some (Json.obj mkvs) →
      jlookup (Json.obj mkvs) "content" = none →
      extractContent (Json.obj kvs) = Json.str "") := by
  refine ⟨?_, ?_, ?_⟩
  · simp [agentic_execute, h]
  · intro kvs hm
    simp only [extractContent, jget, hm]
    rfl
  · intro kvs mkvs hm hc
    simp only [extractContent, jget, hm, Option.getD_some, hc]
    rfl

/-- **C9, witness.**  The gate at the concrete empty response. -/
theorem c9_error_gate_witness :
    agentic_execute cfg0 ⟨"", "x", "ts"⟩ w0 "demo" 10 =
      some ⟨[Msg.starting "demo", Msg.planningFailed ""], [], w0,
            AOutcome.planningFailed⟩ :=
  (c9_error_gate cfg0 ⟨"", "x", "ts"⟩ w0 "demo" 10 (by decide)).1

/-! ## C2 — brace-less responses and the fallback -/

/-- **C2, counterexample.**  A reasoning response with no brace pair does
NOT reach the Direct Executor: the `ValueError` raised at `bot.py` line 168
is not a `json.JSONDecodeError`, so it lands in the generic handler (line
210) as a terminal `Execution error` notice; no fallback, no script, no
tool call. -/
theorem c2_counterexample :
    agentic_execute cfg0 ⟨"no braces here", "x", "ts"⟩ w0 "demo" =
      some ⟨[Msg.starting "demo", Msg.execError "No JSON found in response"],
            [], w0, AOutcome.execError⟩ := rfl

/-- **C2, amended.**  For a non-empty, non-`Error` reasoning response: if
no brace pair exists, the orchestrator reports an execution error and stops
without invoking the fallback; only when a brace-delimited substring exists
but fails to decode (`json.JSONDecodeError`) does it report the
informational notice and invoke the Direct Executor. -/
theorem c2_parse_fallback (cfg : Config) (env : Env) (w : World) (task : String)
    (maxSteps : Nat) (hne : pyFalsyOrError env.planResponse = false) :
    (extractJson env.planResponse = none →
      agentic_execute cfg env w task maxSteps =
        some ⟨[Msg.starting task, Msg.execError "No JSON found in response"],
              [], w, AOutcome.execError⟩) ∧
    (∀ s, extractJson env.planResponse = some s → jsonDecode s = none →
      agentic_execute cfg env w task maxSteps =
        (direct_execute cfg env w task).map fun d =>
          ⟨[Msg.starting task, Msg.parseFallback] ++ d.1, [], d.2,
           AOutcome.fallback⟩) := by
  constructor
  · intro hex
    simp [agentic_execute, hne, hex]
  · intro s hex hdec
    simp [agentic_execute, hne, hex, hdec]

/-- **C2, witness.**  A response whose brace-delimited interior is malformed
JSON: the run is exactly the fallback composition. -/
theorem c2_parse_fallback_witness :
    agentic_execute cfg0 ⟨"text \x7b not json \x7d text", "x = 1", "ts"⟩ w0 "demo" 10 =
      (direct_execute cfg0 ⟨"text \x7b not json \x7d text", "x = 1", "ts"⟩ w0 "demo").map
        (fun d => ⟨[Msg.starting "demo", Msg.parseFallback] ++ d.1, [], d.2,
                   AOutcome.fallback⟩) :=
  (c2_parse_fallback cfg0 ⟨"text \x7b not json \x7d text", "x = 1", "ts"⟩ w0 "demo" 10
    (by decide)).2 "\x7b not json \x7d" rfl rfl

/-! ## C3 — command timeouts -/

/-- **C3, counterexample.**  The direct-execution fallback runs its script
with `await process.communicate()` and no `asyncio.wait_for` (`bot.py` line
276): in a world where the spawned script never terminates, the fallback
never completes — there is no 60-second kill, contradicting the claim.
(The 60-second timeout exists only in the separate `!auto_execute` command,
line 369.) -/
theorem c3_counterexample :
    direct_execute cfg0 ⟨"plan", "x = 1", "20260101_000000"⟩ wHang "use python" =
      none := rfl

/-- **C3, amended.**  Plan-step commands dispatched through
`execute_command` are bounded by the 30-second `asyncio.wait_for`: a command
completing within 30 seconds yields its real result, and one that takes
longer (or never terminates) yields the timeout dictionary
`success=false, output='', error=str(asyncio.TimeoutError())` — note the
CPython text of that exception is empty, so the error is not
timeout-indicating.  The direct-execution fallback has no timeout at all:
its coroutine completes exactly when the script terminates on its own. -/
theorem c3_timeouts :
    (∀ (w : World) (cmd : String) (t : Nat), (w.procs cmd).time = some t → t ≤ 30 →
      execute_command w cmd =
        { success := (w.procs cmd).returncode == 0,
          output := some (w.procs cmd).stdout,
          error := some (w.procs cmd).stderr }) ∧
    (∀ (w : World) (cmd : String) (t : Nat), (w.procs cmd).time = some t → 30 < t →
      execute_command w cmd = timeoutResult) ∧
    (∀ (w : World) (cmd : String), (w.procs cmd).time = none →
      execute_command w cmd = timeoutResult) ∧
    (∀ (cfg : Config) (env : Env) (w : World) (task : String),
      pyFalsyOrError env.codeResponse = false →
      (w.procs (directCommand cfg env task)).time = none →
      direct_execute cfg env w task = none) := by
  refine ⟨?_, ?_, ?_, ?_⟩
  · intro w cmd t ht hle
    simp [execute_command, ht, hle]
  · intro w cmd t ht hgt
    simp [execute_command, ht, Nat.not_le.mpr hgt]
  · intro w cmd ht
    simp [execute_command, ht]
  · intro cfg env w task hcode hhang
    simp only [direct_execute, directCommand, directFilename, hcode,
      Bool.false_eq_true, if_false]
    rw [show ({ w with
        files := fsSet w.files (abspath cfg.cwd (pjoin cfg.scriptDir
          (directFilename env (chooseLanguage task)))) (cleanCode env.codeResponse),
        dirs := addDirTree ((dirname (abspath cfg.cwd (pjoin cfg.scriptDir
          (directFilename env (chooseLanguage task))))).data.length + 1)
          (dirname (abspath cfg.cwd (pjoin cfg.scriptDir
            (directFilename env (chooseLanguage task))))) w.dirs } : World).procs
        = w.procs from rfl]
    rw [directCommand, directFilename] at hhang
    simp [hhang]

/-- **C3, witness.**  The no-timeout conjunct at a concrete hanging world:
a fallback run whose generated shell script never exits never completes. -/
theorem c3_timeouts_witness :
    direct_execute cfg0 ⟨"p", "echo hi", "ts2"⟩ wHang "demo task" = none :=
  c3_timeouts.2.2.2 cfg0 ⟨"p", "echo hi", "ts2"⟩ wHang "demo task"
    (by decide) rfl

/-! ## C7 — decoded plan without a `steps` field -/

/-- **C7, counterexample.**  A decoded plan carrying `thinking` and
`final_answer` but no `steps`: no error is raised and the fallback is not
invoked, and `thinking` is reported — but the `final_answer` is NOT
reported, because the sole `final_answer` send (`bot.py` line 201) sits
inside the `if 'steps' in plan` branch.  The decoded plan demonstrably has
a `final_answer` field, yet no terminal report appears in the stream. -/
theorem c7_counterexample :
    ((agentic_execute cfg0 ⟨planResponseNoSteps, "x", "ts"⟩ w0 "demo").map
      (fun r => (r.outcome, hasFinalMsg r.msgs, r.msgs))) =
      some (AOutcome.noSteps, false,
            [Msg.starting "demo", Msg.thinking "t", Msg.noStepsFound]) ∧
    ((extractJson planResponseNoSteps).bind jsonDecode).map
        (fun p => (jlookup p "final_answer").isSome) = some true := ⟨rfl, rfl⟩

/-- **C7, amended.**  A successfully decoded plan object lacking `steps` is
not an error and the Direct Executor is not invoked — the orchestrator
emits the `thinking` report and a "no executable steps" notice and finishes
with no tool call and the world unchanged — but the plan's `final_answer`
is not reported (it is only emitted inside the steps branch). -/
theorem c7_no_steps_field (cfg : Config) (env : Env) (w : World) (task : String)
    (maxSteps : Nat) (s : String) (plan : Json) (t : String)
    (hne : pyFalsyOrError env.planResponse = false)
    (hex : extractJson env.planResponse = some s)
    (hdec : jsonDecode s = some plan)
    (hsteps : jlookup plan "steps" = none)
    (hth : jlookup plan "thinking" = some (Json.str t)) :
    agentic_execute cfg env w task maxSteps =
      some ⟨[Msg.starting task, Msg.thinking (pyTake 500 t), Msg.noStepsFound],
            [], w, AOutcome.noSteps⟩ := by
  simp [agentic_execute, hne, hex, hdec, afterDecode, thinkingStage, hth, hsteps]

/-- **C7, witness.**  The amended theorem at the concrete no-steps
response. -/
theorem c7_no_steps_field_witness :
    agentic_execute cfg0 ⟨planResponseNoSteps, "x", "ts"⟩ w0 "demo" 10 =
      some ⟨[Msg.starting "demo", Msg.thinking (pyTake 500 "t"), Msg.noStepsFound],
            [], w0, AOutcome.noSteps⟩ :=
  c7_no_steps_field cfg0 ⟨planResponseNoSteps, "x", "ts"⟩ w0 "demo" 10
    "\x7b\"thinking\": \"t\", \"final_answer\": \"done\"\x7d"
    (Json.obj [("thinking", Json.str "t"), ("final_answer", Json.str "done")])
    "t" (by decide) rfl rfl rfl rfl

/-! ## C10 — `final_answer` emitted even after an abort -/

/-- **C10.**  For every decoded plan with a (well-formed, non-empty) steps
list and a `final_answer`, the `final_answer` is emitted as the terminal
report regardless of how the loop ended — the send at `bot.py` line 201
runs after the loop whether it completed, was capped, or `break`-ed on a
failing step.  (The `exc = false` hypothesis confines the plan to the
data-model shape: a step that is not a mapping would raise before reaching
the final report.) -/
theorem c10_final_answer_on_abort (cfg : Config) (w : World) (maxSteps : Nat)
    (plan : Json) (l : List Json) (tmsgs : List Msg) (fa : Json)
    (hth : thinkingStage plan = Except.ok tmsgs)
    (hsteps : jlookup plan "steps" = some (Json.arr l))
    (_hne : l ≠ [])
    (hfa : jlookup plan "final_answer" = some fa)
    (hexc : (runSteps cfg w 1 (l.take maxSteps)).exc = false) :
    Msg.finalResult (pyStr fa) ∈ (afterDecode cfg w maxSteps plan).msgs := by
  simp [afterDecode, hth, hsteps, hexc, finalMsgs, hfa]

/-- **C10, witness.**  A one-step plan whose only step fails (unknown
tool): the run aborts at step 1, and the final answer is still emitted. -/
theorem c10_final_answer_on_abort_witness :
    (afterDecode cfg0 w0 10 planFailFinal).outcome = AOutcome.aborted ∧
    Msg.finalResult "done" ∈ (afterDecode cfg0 w0 10 planFailFinal).msgs :=
  ⟨rfl,
   c10_final_answer_on_abort cfg0 w0 10 planFailFinal
     [Json.obj [("action", Json.str "bogus_tool"), ("params", Json.obj [])]]
     [] (Json.str "done") rfl rfl (List.cons_ne_nil _ _) rfl rfl⟩

/-! ## Step-loop structure lemmas (shared by C4 and C6) -/

/-- Each dispatched step contributes exactly one `ToolResult`, so the loop
never records more results than it has steps. -/
theorem runSteps_length_le (cfg : Config) :
    ∀ (l : List Json) (w : World) (i : Nat),
      (runSteps cfg w i l).results.length ≤ l.length := by
  intro l
  induction l with
  | nil => intro w i; simp [runSteps]
  | cons step rest ih =>
    intro w i
    cases step <;> simp only [runSteps] <;> try simp
    case obj kvs =>
      rcases hE : executeTool cfg w (jget (Json.obj kvs) "action" (Json.str ""))
          (jget (Json.obj kvs) "params" (Json.obj [])) with _ | ⟨r, w2⟩
      · simp [hE]
      · by_cases hs : r.success = true
        · simp only [hE, hs, if_true]
          exact Nat.succ_le_succ (ih w2 (i + 1))
        · simp [hE, hs, Nat.succ_le_succ]

/-- A loop that neither aborted nor raised dispatched every step it was
given. -/
theorem runSteps_length_eq (cfg : Config) :
    ∀ (l : List Json) (w : World) (i : Nat),
      (runSteps cfg w i l).aborted = false →
      (runSteps cfg w i l).exc = false →
      (runSteps cfg w i l).results.length = l.length := by
  intro l
  induction l with
  | nil => intro w i _ _; simp [runSteps]
  | cons step rest ih =>
    intro w i hab hexc
    cases step <;> simp only [runSteps] at hab hexc ⊢ <;> try simp at hexc
    case obj kvs =>
      rcases hE : executeTool cfg w (jget (Json.obj kvs) "action" (Json.str ""))
          (jget (Json.obj kvs) "params" (Json.obj [])) with _ | ⟨r, w2⟩
      · rw [hE] at hexc; simp at hexc
      · by_cases hs : r.success = true
        · rw [hE] at hab hexc; simp only [hs, if_true] at hab hexc ⊢
          simp only [List.length_cons]
          exact congrArg Nat.succ (ih w2 (i + 1) hab hexc)
        · rw [hE] at hab; simp [hs] at hab

/-! ## C4 — abort on first failing step -/

/-- **C4.**  If the `k`-th dispatched `ToolResult` of a plan's step loop has
`success=false`, the loop dispatched nothing after it: the result list ends
exactly at index `k` and the run is marked aborted (`bot.py` lines
188-195: the failing branch emits the error and `break`s). -/
theorem c4_abort_on_failure (cfg : Config) :
    ∀ (l : List Json) (w : World) (i k : Nat) (r : ToolResult),
      (runSteps cfg w i l).results[k]? = some r →
      r.success = false →
      (runSteps cfg w i l).results.length = k + 1 ∧
      (runSteps cfg w i l).aborted = true := by
  intro l
  induction l with
  | nil => intro w i k r hk _; simp [runSteps] at hk
  | cons step rest ih =>
    intro w i k r hk hf
    cases step <;> simp only [runSteps] at hk ⊢ <;> try simp at hk
    case obj kvs =>
      rcases hE : executeTool cfg w (jget (Json.obj kvs) "action" (Json.str ""))
          (jget (Json.obj kvs) "params" (Json.obj [])) with _ | ⟨r0, w2⟩
      · rw [hE] at hk; simp at hk
      · by_cases hs : r0.success = true
        · rw [hE] at hk
          simp only [hs, if_true] at hk ⊢
          cases k with
          | zero =>
            simp at hk
            rw [← hk] at hf
            rw [hf] at hs
            cases hs
          | succ k =>
            simp only [List.getElem?_cons_succ] at hk
            have := ih w2 (i + 1) k r hk hf
            simp [this.1, this.2]
        · rw [hE] at hk
          simp only [hs, if_false] at hk ⊢
          cases k with
          | zero => simp
          | succ k => simp at hk

/-- **C4, witness.**  A two-step plan whose first step names an unknown
tool: the result list stops at index 0 and the run is aborted — the second
step (a `list_files` that would succeed) is never dispatched. -/
theorem c4_abort_on_failure_witness :
    (runSteps cfg0 w0 1
        [Json.obj [("action", Json.str "bogus_tool"), ("params", Json.obj [])],
         Json.obj [("action", Json.str "list_files"), ("params", Json.obj [])]]).results.length
      = 0 + 1 ∧
    (runSteps cfg0 w0 1
        [Json.obj [("action", Json.str "bogus_tool"), ("params", Json.obj [])],
         Json.obj [("action", Json.str "list_files"), ("params", Json.obj [])]]).aborted
      = true :=
  c4_abort_on_failure cfg0
    [Json.obj [("action", Json.str "bogus_tool"), ("params", Json.obj [])],
     Json.obj [("action", Json.str "list_files"), ("params", Json.obj [])]]
    w0 1 0 { success := false, error := some "Unknown tool: bogus_tool" }
    rfl rfl

/-! ## C6 — the step cap -/

/-- **C6, counterexample.**  "Dispatches exactly the first
`min(len(steps), max_steps)` steps" fails when a step fails: a two-step plan
whose first step is bogus dispatches only 1 result, not `min 2 10 = 2` —
the abort (C4) takes precedence over the cap. -/
theorem c6_counterexample :
    ((agentic_execute cfg0 ⟨planResponseB, "x", "ts"⟩ w0 "demo").map
      (fun r => (r.results.length, r.outcome))) = some (1, AOutcome.aborted) ∧
    ((extractJson planResponseB).bind jsonDecode).map stepsLen = some 2 ∧
    (1 : Nat) ≠ min 2 10 := ⟨rfl, rfl, by decide⟩

/-- **C6, amended.**  The executor considers exactly the first
`min(len(steps), max_steps)` steps (the `[:max_steps]` slice, `bot.py` line
177), with `max_steps` defaulting to 10; it dispatches exactly that many
when no dispatched step fails (and every step is well formed), and fewer
only by aborting on a failure.  Steps beyond the cap are silently not
executed: their omission still yields the `completed` outcome, not a
failure. -/
theorem c6_step_cap :
    (∀ (cfg : Config) (w : World) (i m : Nat) (l : List Json),
      (runSteps cfg w i (l.take m)).results.length ≤ min l.length m) ∧
    (∀ (cfg : Config) (w : World) (i m : Nat) (l : List Json),
      (runSteps cfg w i (l.take m)).aborted = false →
      (runSteps cfg w i (l.take m)).exc = false →
      (runSteps cfg w i (l.take m)).results.length = min l.length m) ∧
    (∀ (cfg : Config) (env : Env) (w : World) (task : String),
      agentic_execute cfg env w task = agentic_execute cfg env w task 10) ∧
    (∀ (cfg : Config) (w : World) (m : Nat) (plan : Json) (l : List Json)
        (tmsgs : List Msg),
      thinkingStage plan = Except.ok tmsgs →
      jlookup plan "steps" = some (Json.arr l) →
      (runSteps cfg w 1 (l.take m)).aborted = false →
      (runSteps cfg w 1 (l.take m)).exc = false →
      (afterDecode cfg w m plan).outcome = AOutcome.completed) := by
  refine ⟨?_, ?_, ?_, ?_⟩
  · intro cfg w i m l
    calc (runSteps cfg w i (l.take m)).results.length
        ≤ (l.take m).length := runSteps_length_le cfg (l.take m) w i
      _ = min m l.length := List.length_take m l
      _ = min l.length m := Nat.min_comm m l.length
  · intro cfg w i m l hab hexc
    calc (runSteps cfg w i (l.take m)).results.length
        = (l.take m).length := runSteps_length_eq cfg (l.take m) w i hab hexc
      _ = min m l.length := List.length_take m l
      _ = min l.length m := Nat.min_comm m l.length
  · intro cfg env w task
    rfl
  · intro cfg w m plan l tmsgs hth hsteps hab hexc
    simp [afterDecode, hth, hsteps, hab, hexc]

/-- **C6, witness.**  The no-abort conjunct at a concrete two-step plan of
`list_files` calls under the default cap: both steps dispatch and the
outcome is `completed`. -/
theorem c6_step_cap_witness :
    (runSteps cfg0 w0 1
      ([Json.obj [("action", Json.str "list_files"), ("params", Json.obj [])],
        Json.obj [("action", Json.str "list_files"), ("params", Json.obj [])]].take 10)).results.length
      = min 2 10 :=
  c6_step_cap.2.1 cfg0 w0 1 10
    [Json.obj [("action", Json.str "list_files"), ("params", Json.obj [])],
     Json.obj [("action", Json.str "list_files"), ("params", Json.obj [])]]
    rfl rfl

/-! ## C8 — steps with a missing `action` or `params` -/

/-- **C8, counterexample.**  A step whose `params` mapping is missing is NOT
treated as an unknown-tool error: `step.get('params', {})` substitutes an
empty mapping (`bot.py` line 179) and the named tool runs with its default
arguments.  Concretely, `\x7b"action": "list_files"\x7d` dispatches
`list_files('.')` against the existing script root and SUCCEEDS — no abort,
no unknown-tool failure. -/
theorem c8_counterexample :
    (runSteps cfg0 w0 1 [Json.obj [("action", Json.str "list_files")]]).results =
      [{ success := true, files := some [] }] ∧
    (runSteps cfg0 w0 1 [Json.obj [("action", Json.str "list_files")]]).aborted =
      false := ⟨rfl, rfl⟩

/-- **C8, amended.**  Only a missing `action` triggers the unknown-tool
path: the action defaults to the empty string, dispatch fails with
`Unknown tool: ` and the remaining steps are never run (the usual abort); a
missing `params` merely defaults to the empty mapping — dispatching such a
step is identical to dispatching the same step with an explicit empty
`params`, and it may succeed. -/
theorem c8_malformed_step :
    (∀ (cfg : Config) (w : World) (i : Nat) (rest : List Json)
        (kvs : List (String × Json)),
      jlookup (Json.obj kvs) "action" = none →
      runSteps cfg w i (Json.obj kvs :: rest) =
        ⟨[Msg.stepStart i (jget (Json.obj kvs) "reason" (Json.str ""))
            (Json.str "") (jget (Json.obj kvs) "params" (Json.obj [])),
          Msg.stepFailed i "Unknown tool: "],
         [{ success := false, error := some "Unknown tool: " }], w, true, false⟩) ∧
    (∀ (cfg : Config) (w : World) (i : Nat) (rest : List Json) (a : Json),
      runSteps cfg w i (Json.obj [("action", a)] :: rest) =
        runSteps cfg w i
          (Json.obj [("action", a), ("params", Json.obj [])] :: rest)) := by
  constructor
  · intro cfg w i rest kvs hact
    have hA : jget (Json.obj kvs) "action" (Json.str "") = Json.str "" := by
      simp [jget, hact]
    have hU : executeTool cfg w (Json.str "")
        (jget (Json.obj kvs) "params" (Json.obj [])) =
        some ({ success := false, error := some "Unknown tool: " }, w) :=
      executeTool_unknown cfg w "" (jget (Json.obj kvs) "params" (Json.obj []))
        (by decide) (by decide) (by decide) (by decide)
    simp [runSteps, hA, hU]
  · intro cfg w i rest a
    rfl

/-- **C8, witness.**  The missing-`action` conjunct at a concrete step:
the lone unparametrized step aborts with the empty-name unknown-tool
failure. -/
theorem c8_malformed_step_witness :
    runSteps cfg0 w0 1 [Json.obj [("reason", Json.str "r")]] =
      ⟨[Msg.stepStart 1 (jget (Json.obj [("reason", Json.str "r")]) "reason" (Json.str ""))
          (Json.str "") (jget (Json.obj [("reason", Json.str "r")]) "params" (Json.obj [])),
        Msg.stepFailed 1 "Unknown tool: "],
       [{ success := false, error := some "Unknown tool: " }], w0, true, false⟩ :=
  c8_malformed_step.1 cfg0 w0 1 [] [("reason", Json.str "r")] rfl

/-! ## C1 — path confinement of `write_file` / `read_file` -/

/-- `splitChar` never returns the empty list of fields. -/
theorem splitChar_ne_nil (c : Char) : ∀ l : List Char, splitChar c l ≠ [] := by
  intro l
  induction l with
  | nil => simp [splitChar]
  | cons d ds ih =>
    by_cases h : d = c
    · simp [splitChar, h]
    · simp only [splitChar, h, if_false]
      rcases hs : splitChar c ds with _ | ⟨p, ps⟩
      · exact absurd hs ih
      · simp

/-- Splitting at a separator occurrence splits the surrounding fields. -/
theorem splitChar_append (c : Char) :
    ∀ a b : List Char, splitChar c (a ++ c :: b) = splitChar c a ++ splitChar c b := by
  intro a
  induction a with
  | nil => intro b; simp [splitChar]
  | cons d ds ih =>
    intro b
    by_cases h : d = c
    · simp only [List.cons_append, splitChar, h, if_true, List.append_eq]
      rw [ih b]
    · simp only [List.cons_append, splitChar, h, if_false, List.append_eq]
      rw [ih b]
      rcases hs : splitChar c ds with _ | ⟨p, ps⟩
      · exact absurd hs (splitChar_ne_nil c ds)
      · simp [hs]

/-- Components without `..` never pop the normalization stack: the folded
stack keeps its starting prefix. -/
theorem foldl_normStack_prefix :
    ∀ (parts s : List (List Char)), (∀ x ∈ parts, x ≠ ['.', '.']) →
      ∃ t, parts.foldl (normStack true) s = s ++ t := by
  intro parts
  induction parts with
  | nil => intro s _; exact ⟨[], by simp⟩
  | cons c cs ih =>
    intro s hno
    have hc : c ≠ ['.', '.'] := hno c (List.mem_cons_self c cs)
    have hrest : ∀ x ∈ cs, x ≠ ['.', '.'] := fun x hx => hno x (List.mem_cons_of_mem c hx)
    simp only [List.foldl_cons]
    by_cases h0 : c = [] ∨ c = ['.']
    · rw [show normStack true s c = s from by simp [normStack, h0]]
      exact ih s hrest
    · rw [show normStack true s c = s ++ [c] from by simp [normStack, h0, hc]]
      obtain ⟨t, ht⟩ := ih (s ++ [c]) hrest
      exact ⟨[c] ++ t, by simp [ht]⟩

/-- **C1, counterexample.**  With the default configuration (root
`/w/scripts`), `write_file` with filepath `../x` succeeds and writes the
file at `/w/x` — outside the root, with no rejection — and `read_file` with
`../secret` returns the content of `/w/secret`, likewise outside the root.
There is no containment check in `bot.py` lines 52-73. -/
theorem c1_counterexample :
    ((write_file cfg0 w0 "../x" "hi").1.success = true ∧
     (write_file cfg0 w0 "../x" "hi").1.path = some "/w/x" ∧
     (write_file cfg0 w0 "../x" "hi").2.files = [("/w/x", "hi")] ∧
     withinRoot (scriptRoot cfg0) "/w/x" = false) ∧
    (read_file cfg0 wSecret "../secret" = { success := true, content := some "sss" } ∧
     withinRoot (scriptRoot cfg0) (resolveTool cfg0 "../secret") = false) :=
  ⟨⟨rfl, rfl, rfl, by decide⟩, ⟨rfl, by decide⟩⟩

/-- **C1, amended.**  The path a tool touches is exactly
`abspath(join(SCRIPT_DIR, filepath))`, with no containment check: for a
relative `filepath` containing no `..` component the resolved path is the
root or a descendant of it, but `..` components or absolute filepaths can
resolve — and are read/written — outside the root (the counterexample). -/
theorem c1_path_resolution :
    (∀ (w : World) (f content : String),
      (write_file cfg0 w f content).1.path = some (resolveTool cfg0 f) ∧
      (write_file cfg0 w f content).2.files =
        fsSet w.files (resolveTool cfg0 f) content) ∧
    (∀ f : String, headIs f '/' = false → hasDotDot f = false →
      withinRoot (scriptRoot cfg0) (resolveTool cfg0 f) = true) := by
  refine ⟨fun w f content => ⟨rfl, rfl⟩, ?_⟩
  intro f hhead hdd
  have h1 : pjoin "./scripts" f = "./scripts" ++ "/" ++ f := by
    unfold pjoin
    rw [hhead]
    simp only [Bool.false_eq_true, if_false]
    rw [if_neg (by decide : ¬("./scripts" : String) = "")]
    rw [if_neg (by decide : ¬lastIs "./scripts" '/' = true)]
  have hq : headIs ("./scripts" ++ "/" ++ f) '/' = false := rfl
  have h2 : pjoin "/w" ("./scripts" ++ "/" ++ f) =
      "/w" ++ "/" ++ ("./scripts" ++ "/" ++ f) := by
    unfold pjoin
    rw [hq]
    simp only [Bool.false_eq_true, if_false]
    rw [if_neg (by decide : ¬("/w" : String) = "")]
    rw [if_neg (by decide : ¬lastIs "/w" '/' = true)]
  have hres : resolveTool cfg0 f =
      normpath ("/w" ++ "/" ++ ("./scripts" ++ "/" ++ f)) := by
    show abspath cfg0.cwd (pjoin cfg0.scriptDir f) = _
    show normpath (pjoin "/w" (pjoin "./scripts" f)) = _
    rw [h1, h2]
  have hPdata : ("/w" ++ "/" ++ ("./scripts" ++ "/" ++ f)).data =
      "/w/./scripts".data ++ '/' :: f.data := rfl
  have hflag : headIs ("/w" ++ "/" ++ ("./scripts" ++ "/" ++ f)) '/' = true := rfl
  have hno : ∀ x ∈ splitSlash f.data, x ≠ ['.', '.'] := by
    intro x hx hxe
    have : (splitSlash f.data).any (· = ['.', '.']) = true :=
      List.any_eq_true.mpr ⟨x, hx, by simp [hxe]⟩
    rw [hasDotDot] at hdd
    rw [hdd] at this
    cases this
  obtain ⟨t, ht⟩ := foldl_normStack_prefix (splitSlash f.data)
    [['w'], ['s', 'c', 'r', 'i', 'p', 't', 's']] hno
  have hcomps : (splitSlash ("/w" ++ "/" ++ ("./scripts" ++ "/" ++ f)).data).foldl
      (normStack true) [] = [['w'], ['s', 'c', 'r', 'i', 'p', 't', 's']] ++ t := by
    rw [hPdata]
    simp only [splitSlash]
    rw [splitChar_append '/' ("/w/./scripts".data) f.data]
    rw [List.foldl_append]
    exact ht
  rw [hres]
  rw [normpath]
  simp only [hflag, if_true, hcomps]
  rcases t with _ | ⟨e, es⟩
  · rfl
  · have hpre : (("/w/scripts" ++ "/").data.isPrefixOf
        ('/' :: joinSlash ([['w'], ['s', 'c', 'r', 'i', 'p', 't', 's']] ++ e :: es))) = true := by
      rw [ List.isPrefixOf_iff_prefix]
      show ("/w/scripts" ++ "/").data <+: "/w/scripts/".data ++ joinSlash (e :: es)
      exact List.prefix_append _ _
    rw [if_neg (by simp :
      ¬('/' :: joinSlash ([['w'], ['s', 'c', 'r', 'i', 'p', 't', 's']] ++ e :: es)) = [])]
    show (String.mk ('/' :: joinSlash ([['w'], ['s', 'c', 'r', 'i', 'p', 't', 's']] ++ e :: es)) == "/w/scripts" ||
      ("/w/scripts" ++ "/").data.isPrefixOf
        ('/' :: joinSlash ([['w'], ['s', 'c', 'r', 'i', 'p', 't', 's']] ++ e :: es))) = true
    rw [hpre]
    simp

/-- **C1, witness.**  The confinement conjunct at a concrete safe filepath:
`a/b.txt` resolves to a descendant of the root. -/
theorem c1_path_resolution_witness :
    withinRoot (scriptRoot cfg0) (resolveTool cfg0 "a/b.txt") = true :=
  c1_path_resolution.2 "a/b.txt" (by decide) (by decide)

end Bot
